import Mathlib

/-!
Shallow embedding of the `InputField` presentational control from
`src/MyComponent.jsx`.

Modelling conventions:
* Optional string props (`label`, `placeholder`, `helperText`, `errorMessage`)
  are `Option String`; JavaScript truthiness of such a prop (`!!s`, `s ? a : b`)
  is `truthy`: `none` and `some ""` are both falsy, matching `undefined` and
  `""` in JS.
* The `variant` prop is a `String`: the runtime `switch` in
  `getVariantClasses` accepts any string and falls through to the
  `default` (outlined) branch, which claim C6 is about.
* Callbacks (`onChange`, `onClear`) are `Option Unit`: only their presence is
  observable to the control logic; the effect of a click is reified as a
  `ClearEffect` value instead of actually invoking a function.
* React state hooks (`showPassword`, `isFocused`) become the explicit
  `TransientState` record threaded through the event handlers; `render`
  is the pure function from props and transient state to the produced DOM
  description (`RenderOutput`).
-/

/-- The closed `type` enumeration of the input: text, email or password. -/
inductive InputKind where
  | text
  | email
  | password
deriving DecidableEq, BEq, Repr

/-- The closed `size` enumeration: sm, md or lg. -/
inductive Size where
  | sm
  | md
  | lg
deriving DecidableEq, BEq, Repr

/-- The closed `theme` enumeration: light or dark. -/
inductive Theme where
  | light
  | dark
deriving DecidableEq, BEq, Repr

/-- The props of `InputField` (src/MyComponent.jsx lines 4-40), with the
default values of the source. -/
structure InputFieldProps where
  value : String := ""
  onChange : Option Unit := none
  label : Option String := none
  placeholder : Option String := none
  helperText : Option String := none
  errorMessage : Option String := none
  disabled : Bool := false
  invalid : Bool := false
  loading : Bool := false
  variant : String := "outlined"
  size : Size := Size.md
  type : InputKind := InputKind.text
  showClearButton : Bool := false
  theme : Theme := Theme.light
  onClear : Option Unit := none
  className : String := ""
deriving DecidableEq, Repr

/-- The two `useState` hooks of the control (src/MyComponent.jsx lines 42-43). -/
structure TransientState where
  showPassword : Bool := false
  isFocused : Bool := false
deriving DecidableEq, Repr

/-- JavaScript truthiness of an optional string: `undefined` and `""` are
falsy, any non-empty string is truthy. -/
def truthy : Option String → Bool
  | none => false
  | some s => s != ""

/-- Line 48: `isPassword` holds exactly when the `type` prop is password. -/
def isPassword (p : InputFieldProps) : Bool :=
  p.type == InputKind.password

/-- Line 49: the effective input type; a password input renders as text
while the reveal flag is set, any other input renders as its declared
`type`. -/
def inputType (p : InputFieldProps) (st : TransientState) : InputKind :=
  if isPassword p then
    (if st.showPassword then InputKind.text else InputKind.password)
  else p.type

/-- `const hasError = invalid || !!errorMessage;` (line 50). -/
def hasError (p : InputFieldProps) : Bool :=
  p.invalid || truthy p.errorMessage

/-- `const hasValue = value && value.length > 0;` (line 51): `value` is a
string, so it is truthy exactly when non-empty and its length check follows. -/
def hasValue (p : InputFieldProps) : Bool :=
  (p.value != "") && decide (0 < p.value.length)

/-- The `sizeClasses` lookup object (lines 54-58). -/
def sizeClasses : Size → String
  | Size.sm => "px-3 py-2 text-sm"
  | Size.md => "px-4 py-3 text-base"
  | Size.lg => "px-5 py-4 text-lg"

/-- The `iconSizeClasses` lookup object (lines 60-64). -/
def iconSizeClasses : Size → String
  | Size.sm => "w-4 h-4"
  | Size.md => "w-5 h-5"
  | Size.lg => "w-6 h-6"

/-- `getVariantClasses` (lines 67-93): a function of the closed-over
`disabled`, `hasError` and `variant`; the `switch` statements on `variant`
become if-chains on string equality with the `default` case as the final
else branch. -/
def getVariantClasses (disabled hasErrorFlag : Bool) (variant : String) : String :=
  let baseClasses := "w-full rounded-lg border transition-all duration-200 focus:outline-none focus:ring-2"
  if disabled then
    baseClasses ++ " opacity-50 cursor-not-allowed bg-gray-100 border-gray-200 text-gray-400"
  else if hasErrorFlag then
    if variant = "filled" then
      baseClasses ++ " bg-red-50 border-red-200 text-red-900 focus:ring-red-500 focus:border-red-500"
    else if variant = "ghost" then
      baseClasses ++ " bg-transparent border-transparent border-b-red-500 border-b-2 rounded-none focus:ring-red-500 focus:border-b-red-500"
    else
      baseClasses ++ " bg-white border-red-300 text-gray-900 focus:ring-red-500 focus:border-red-500"
  else
    if variant = "filled" then
      baseClasses ++ " bg-gray-100 border-gray-200 text-gray-900 focus:ring-blue-500 focus:border-blue-500 hover:bg-gray-50"
    else if variant = "ghost" then
      baseClasses ++ " bg-transparent border-transparent border-b-gray-300 border-b-2 rounded-none focus:ring-blue-500 focus:border-b-blue-500 hover:border-b-gray-400"
    else
      baseClasses ++ " bg-white border-gray-300 text-gray-900 focus:ring-blue-500 focus:border-blue-500 hover:border-gray-400"

/-- Line 96: the theme class is "dark" for the dark theme, empty otherwise. -/
def themeClasses (theme : Theme) : String :=
  if theme == Theme.dark then "dark" else ""

/-- The observable effect of one invocation of the clear-button click
handler. -/
inductive ClearEffect where
  | callOnClear
  | changeEvent (newText : String)
  | noEffect
deriving DecidableEq, Repr

/-- `handleClear` (lines 98-107): call `onClear` when supplied, else
synthesize a change event carrying an empty target value for `onChange` when
supplied, else do nothing. -/
def handleClear (p : InputFieldProps) : ClearEffect :=
  match p.onClear with
  | some _ => ClearEffect.callOnClear
  | none =>
    match p.onChange with
    | some _ => ClearEffect.changeEvent ""
    | none => ClearEffect.noEffect

/-- A click on the clear button (line 161): it invokes `handleClear` and
touches neither state hook. -/
def clearClick (p : InputFieldProps) (st : TransientState) :
    TransientState × ClearEffect :=
  (st, handleClear p)

/-- A click on the password-reveal toggle (line 173): it flips the reveal
flag and emits no change event. The second component lists the change
notifications emitted by the click (always none). -/
def togglePasswordClick (st : TransientState) : TransientState × List String :=
  ({ st with showPassword := !st.showPassword }, [])

/-- The focus event handler (line 145): it sets the focus flag. -/
def focusEvent (st : TransientState) : TransientState :=
  { st with isFocused := true }

/-- The blur event handler (line 146): it resets the focus flag. -/
def blurEvent (st : TransientState) : TransientState :=
  { st with isFocused := false }

/-- The two possible `aria-describedby` targets, `errorId` and
`helperTextId` (lines 45-46): `useId` values are opaque and distinct, so an
enumeration suffices. -/
inductive DescriptionId where
  | errorId
  | helperTextId
deriving DecidableEq, Repr

/-- The footer message region (lines 188-199), when rendered: its element
id and its rendered content (`hasError ? errorMessage : helperText`). -/
structure FooterRegion where
  id : DescriptionId
  content : Option String
deriving DecidableEq, Repr

/-- The DOM description produced by one render of `InputField`
(lines 109-201). -/
structure RenderOutput where
  themeClass : String
  labelRegion : Option String
  inputType : InputKind
  inputValue : String
  inputDisabled : Bool
  ariaInvalid : Bool
  ariaDescribedby : Option DescriptionId
  inputClassName : String
  loadingIndicator : Bool
  clearButton : Bool
  passwordToggle : Bool
  footer : Option FooterRegion
deriving DecidableEq, Repr

/-- The render function of `InputField`: the JSX return value (lines
109-201) as a pure function of props and transient state. -/
def render (p : InputFieldProps) (st : TransientState) : RenderOutput :=
  { themeClass := themeClasses p.theme
  , labelRegion := if truthy p.label then p.label else none
  , inputType := inputType p st
  , inputValue := p.value
  , inputDisabled := p.disabled
  , ariaInvalid := hasError p
  , ariaDescribedby :=
      if hasError p then some DescriptionId.errorId
      else if truthy p.helperText then some DescriptionId.helperTextId
      else none
  , inputClassName :=
      getVariantClasses p.disabled (hasError p) p.variant ++ " " ++
      sizeClasses p.size ++ " " ++
      (if (p.showClearButton && hasValue p) || isPassword p || p.loading
        then "pr-12" else "") ++
      " dark:bg-gray-800 dark:border-gray-600 dark:text-white dark:placeholder-gray-400"
  , loadingIndicator := p.loading
  , clearButton := p.showClearButton && hasValue p && !p.loading && !p.disabled
  , passwordToggle := isPassword p && !p.loading
  , footer :=
      if truthy p.helperText || truthy p.errorMessage then
        some { id := if hasError p then DescriptionId.errorId else DescriptionId.helperTextId
             , content := if hasError p then p.errorMessage else p.helperText }
      else none }

/-- The canonical variant enumeration of the spec: filled, outlined, ghost. -/
inductive VariantE where
  | filled
  | outlined
  | ghost
deriving DecidableEq, Repr

/-- Classification of a runtime variant string into the enumeration of the spec:
the recognized values map to themselves and anything else falls back to
`outlined`, mirroring the default branches of the switches in the source. -/
def parseVariant (v : String) : VariantE :=
  if v = "filled" then VariantE.filled
  else if v = "ghost" then VariantE.ghost
  else VariantE.outlined

/-- Spec-side definition for the style-selection refinement (claim C6): the
spec describes style selection as a total lookup table keyed by the triple
(disabled, error-condition, variant); this is that table, written as an
exhaustive match over the three enumerations. -/
def variantStyleTable : Bool → Bool → VariantE → String
  | true, _, _ =>
    "w-full rounded-lg border transition-all duration-200 focus:outline-none focus:ring-2 opacity-50 cursor-not-allowed bg-gray-100 border-gray-200 text-gray-400"
  | false, true, VariantE.filled =>
    "w-full rounded-lg border transition-all duration-200 focus:outline-none focus:ring-2 bg-red-50 border-red-200 text-red-900 focus:ring-red-500 focus:border-red-500"
  | false, true, VariantE.ghost =>
    "w-full rounded-lg border transition-all duration-200 focus:outline-none focus:ring-2 bg-transparent border-transparent border-b-red-500 border-b-2 rounded-none focus:ring-red-500 focus:border-b-red-500"
  | false, true, VariantE.outlined =>
    "w-full rounded-lg border transition-all duration-200 focus:outline-none focus:ring-2 bg-white border-red-300 text-gray-900 focus:ring-red-500 focus:border-red-500"
  | false, false, VariantE.filled =>
    "w-full rounded-lg border transition-all duration-200 focus:outline-none focus:ring-2 bg-gray-100 border-gray-200 text-gray-900 focus:ring-blue-500 focus:border-blue-500 hover:bg-gray-50"
  | false, false, VariantE.ghost =>
    "w-full rounded-lg border transition-all duration-200 focus:outline-none focus:ring-2 bg-transparent border-transparent border-b-gray-300 border-b-2 rounded-none focus:ring-blue-500 focus:border-b-blue-500 hover:border-b-gray-400"
  | false, false, VariantE.outlined =>
    "w-full rounded-lg border transition-all duration-200 focus:outline-none focus:ring-2 bg-white border-gray-300 text-gray-900 focus:ring-blue-500 focus:border-blue-500 hover:border-gray-400"

/-- A string is non-empty exactly when the `hasValue` check of the source
(`value && value.length > 0`) succeeds. -/
theorem hasValue_eq_true_iff (p : InputFieldProps) :
    hasValue p = true ↔ p.value ≠ "" := by
  unfold hasValue
  constructor
  · intro h
    simp only [Bool.and_eq_true, bne_iff_ne, ne_eq] at h
    exact h.1
  · intro h
    have hd : p.value.data ≠ [] := by
      intro hnil
      exact h (String.ext hnil)
    have hlen : 0 < p.value.length := by
      simp only [String.length]
      exact List.length_pos.mpr hd
    simp [h, hlen]

/-- Unfolding lemma for the footer region of a render. -/
theorem footer_eq (p : InputFieldProps) (st : TransientState) :
    (render p st).footer =
      if truthy p.helperText || truthy p.errorMessage then
        some ⟨(if hasError p then DescriptionId.errorId else DescriptionId.helperTextId),
              (if hasError p then p.errorMessage else p.helperText)⟩
      else none := rfl

/-- C1: whenever the error condition holds (`invalid` true or `errorMessage`
non-empty), the render marks the input invalid (aria-invalid), whatever the
footer region shows is the error message (so never the helper text), and a
non-empty error message is in fact shown in the footer. -/
theorem error_display_precedence (p : InputFieldProps) (st : TransientState)
    (h : hasError p = true) :
    (render p st).ariaInvalid = true
    ∧ (∀ fr : FooterRegion, (render p st).footer = some fr →
        fr.content = p.errorMessage)
    ∧ (truthy p.errorMessage = true →
        (render p st).footer = some ⟨DescriptionId.errorId, p.errorMessage⟩) := by
  refine ⟨h, ?_, ?_⟩
  · intro fr hfr
    rw [footer_eq] at hfr
    split at hfr
    · injection hfr with h2
      subst h2
      simp [h]
    · exact Option.noConfusion hfr
  · intro h2
    rw [footer_eq]
    simp [h, h2]

/-- Witness for C1 at a concrete configuration. -/
theorem error_display_precedence_witness :
    (render ({ invalid := true, errorMessage := some "bad", helperText := some "help" }
      : InputFieldProps) ⟨false, false⟩).ariaInvalid = true
    ∧ (render ({ invalid := true, errorMessage := some "bad", helperText := some "help" }
      : InputFieldProps) ⟨false, false⟩).footer
        = some ⟨DescriptionId.errorId, some "bad"⟩ :=
  ⟨(error_display_precedence
      { invalid := true, errorMessage := some "bad", helperText := some "help" }
      ⟨false, false⟩ rfl).1,
   (error_display_precedence
      { invalid := true, errorMessage := some "bad", helperText := some "help" }
      ⟨false, false⟩ rfl).2.2 (by decide)⟩

/-- C2: the clear button is rendered exactly when `showClearButton` is true,
the current text is non-empty, `loading` is false, and `disabled` is false. -/
theorem clear_button_visibility (p : InputFieldProps) (st : TransientState) :
    (render p st).clearButton = true ↔
      (p.showClearButton = true ∧ p.value ≠ "" ∧ p.loading = false
        ∧ p.disabled = false) := by
  have hv := hasValue_eq_true_iff p
  constructor
  · intro h
    simp only [render, Bool.and_eq_true, Bool.not_eq_true'] at h
    exact ⟨h.1.1.1, hv.mp h.1.1.2, h.1.2, h.2⟩
  · rintro ⟨h1, h2, h3, h4⟩
    simp [render, h1, h3, h4, hv.mpr h2]

/-- Witness for C2 at a concrete configuration. -/
theorem clear_button_visibility_witness :
    (render ({ value := "abc", showClearButton := true } : InputFieldProps)
      ⟨false, false⟩).clearButton = true :=
  (clear_button_visibility ({ value := "abc", showClearButton := true }
    : InputFieldProps) ⟨false, false⟩).mpr ⟨rfl, by decide, rfl, rfl⟩

/-- C3: for a password input, toggling the reveal flag twice returns the
effective rendered type to its original value, neither toggle click emits a
change notification, and the rendered value stays the configured `value`
throughout. -/
theorem password_toggle_roundtrip (p : InputFieldProps) (st : TransientState)
    (_h : p.type = InputKind.password) :
    (togglePasswordClick st).2 = []
    ∧ (togglePasswordClick (togglePasswordClick st).1).2 = []
    ∧ (render p (togglePasswordClick (togglePasswordClick st).1).1).inputType
        = (render p st).inputType
    ∧ (render p st).inputValue = p.value
    ∧ (render p (togglePasswordClick st).1).inputValue = p.value
    ∧ (render p (togglePasswordClick (togglePasswordClick st).1).1).inputValue
        = p.value := by
  obtain ⟨sp, f⟩ := st
  cases sp <;> exact ⟨rfl, rfl, rfl, rfl, rfl, rfl⟩

/-- Witness for C3: the spec example of a password input with value "secret";
the effective type goes password, text, password across the two toggles and
the value stays `"secret"`. -/
theorem password_toggle_roundtrip_witness :
    (render ({ type := InputKind.password, value := "secret" } : InputFieldProps)
      ⟨false, false⟩).inputType = InputKind.password
    ∧ (render ({ type := InputKind.password, value := "secret" } : InputFieldProps)
      (togglePasswordClick ⟨false, false⟩).1).inputType = InputKind.text
    ∧ (render ({ type := InputKind.password, value := "secret" } : InputFieldProps)
      (togglePasswordClick (togglePasswordClick ⟨false, false⟩).1).1).inputType
        = InputKind.password
    ∧ (render ({ type := InputKind.password, value := "secret" } : InputFieldProps)
      (togglePasswordClick (togglePasswordClick ⟨false, false⟩).1).1).inputValue
        = "secret" :=
  ⟨rfl, rfl,
   (password_toggle_roundtrip { type := InputKind.password, value := "secret" }
     ⟨false, false⟩ rfl).2.2.1,
   (password_toggle_roundtrip { type := InputKind.password, value := "secret" }
     ⟨false, false⟩ rfl).2.2.2.2.2⟩

/-- C4: clicking the clear action invokes the supplied `onClear` callback;
without `onClear`, it synthesizes a change event carrying the empty string
for a supplied `onChange`. -/
theorem clear_action_dispatch (p : InputFieldProps) :
    (∀ u : Unit, p.onClear = some u → handleClear p = ClearEffect.callOnClear)
    ∧ (p.onClear = none → ∀ u : Unit, p.onChange = some u →
        handleClear p = ClearEffect.changeEvent "") := by
  constructor
  · intro u hu
    simp [handleClear, hu]
  · intro hn u hc
    simp [handleClear, hn, hc]

/-- Witness for C4: the spec example configuration with value "abc" and
no `onClear` yields a change event with text `""`; with `onClear` supplied,
the callback is invoked. -/
theorem clear_action_dispatch_witness :
    handleClear ({ value := "abc", showClearButton := true, onChange := some () }
      : InputFieldProps) = ClearEffect.changeEvent ""
    ∧ handleClear ({ onClear := some () } : InputFieldProps)
        = ClearEffect.callOnClear :=
  ⟨(clear_action_dispatch
      ({ value := "abc", showClearButton := true, onChange := some () }
        : InputFieldProps)).2 rfl () rfl,
   (clear_action_dispatch ({ onClear := some () } : InputFieldProps)).1 () rfl⟩

/-- C7: when the error condition is false and `helperText` is non-empty, the
footer region is rendered with the helper-text identifier and shows exactly
the helper text. -/
theorem helper_text_display (p : InputFieldProps) (st : TransientState)
    (h1 : hasError p = false) (h2 : truthy p.helperText = true) :
    (render p st).footer = some ⟨DescriptionId.helperTextId, p.helperText⟩ := by
  rw [footer_eq]
  simp [h1, h2]

/-- Witness for C7 at a concrete configuration. -/
theorem helper_text_display_witness :
    (render ({ helperText := some "hint" } : InputFieldProps) ⟨false, false⟩).footer
      = some ⟨DescriptionId.helperTextId, some "hint"⟩ :=
  helper_text_display ({ helperText := some "hint" } : InputFieldProps)
    ⟨false, false⟩ rfl (by decide)

/-- C9: the focus flag does not influence the render output: for any
configuration and any reveal-flag value, rendering with the focus flag true
and with it false produce identical output. -/
theorem focus_flag_noninterference (p : InputFieldProps) (sp : Bool) :
    render p ⟨sp, true⟩ = render p ⟨sp, false⟩ := rfl

/-- C10: clicking the clear action with neither `onClear` nor `onChange`
supplied leaves the transient state unchanged and has no effect. -/
theorem clear_click_noop (p : InputFieldProps) (st : TransientState)
    (h1 : p.onClear = none) (h2 : p.onChange = none) :
    clearClick p st = (st, ClearEffect.noEffect) := by
  simp [clearClick, handleClear, h1, h2]

/-- Witness for C10 at a concrete configuration. -/
theorem clear_click_noop_witness :
    clearClick ({ value := "abc", showClearButton := true } : InputFieldProps)
      ⟨false, false⟩ = (⟨false, false⟩, ClearEffect.noEffect) :=
  clear_click_noop ({ value := "abc", showClearButton := true } : InputFieldProps)
    ⟨false, false⟩ rfl rfl

/-- C5, counterexample: the claim says that outside the case
(kind=password, reveal false) the input is rendered with its declared kind;
but for kind=password with the reveal flag true the rendered type is text,
not the declared password. -/
theorem effective_type_claim_false :
    ¬(({ type := InputKind.password } : InputFieldProps).type = InputKind.password
        ∧ (⟨true, false⟩ : TransientState).showPassword = false)
    ∧ (render ({ type := InputKind.password } : InputFieldProps)
        ⟨true, false⟩).inputType
      ≠ ({ type := InputKind.password } : InputFieldProps).type := by
  decide

/-- C5, amended: the effective rendered type is password exactly when
kind=password and the reveal flag is false; when the kind is not password
the input is rendered with its declared kind; when kind=password and the
reveal flag is true it is rendered as text. -/
theorem effective_type_invariant (p : InputFieldProps) (st : TransientState) :
    ((render p st).inputType = InputKind.password ↔
      (p.type = InputKind.password ∧ st.showPassword = false))
    ∧ (p.type ≠ InputKind.password → (render p st).inputType = p.type)
    ∧ (p.type = InputKind.password → st.showPassword = true →
        (render p st).inputType = InputKind.text) := by
  obtain ⟨sp, f⟩ := st
  cases hpt : p.type <;> cases sp <;>
    simp [render, inputType, isPassword, hpt] <;> decide

/-- Witness for the amended C5 at concrete configurations. -/
theorem effective_type_invariant_witness :
    (render ({ type := InputKind.email } : InputFieldProps)
      ⟨false, false⟩).inputType = InputKind.email
    ∧ (render ({ type := InputKind.password } : InputFieldProps)
      ⟨true, false⟩).inputType = InputKind.text :=
  ⟨(effective_type_invariant ({ type := InputKind.email } : InputFieldProps)
      ⟨false, false⟩).2.1 (by decide),
   (effective_type_invariant ({ type := InputKind.password } : InputFieldProps)
      ⟨true, false⟩).2.2 rfl rfl⟩

/-- The style selection of the source agrees pointwise with the total
lookup table after classifying the runtime variant string. -/
theorem getVariantClasses_eq_table (d e : Bool) (v : String) :
    getVariantClasses d e v = variantStyleTable d e (parseVariant v) := by
  unfold getVariantClasses variantStyleTable parseVariant
  by_cases h1 : v = "filled"
  · subst h1
    cases d <;> cases e <;> rfl
  · by_cases h2 : v = "ghost"
    · subst h2
      cases d <;> cases e <;> simp [h1]
    · cases d <;> cases e <;> simp [h1, h2]

/-- C6: style selection is a total pure function of (disabled,
error-condition, variant): it refines the exhaustive lookup table of the spec,
any unrecognized variant string produces the outlined style, and disabled
takes precedence over both the variant and the error flag. -/
theorem style_selection_total (d e : Bool) (v : String) :
    getVariantClasses d e v = variantStyleTable d e (parseVariant v)
    ∧ (v ≠ "filled" → v ≠ "ghost" →
        getVariantClasses d e v = getVariantClasses d e "outlined")
    ∧ (d = true →
        getVariantClasses d e v = variantStyleTable true false VariantE.outlined) := by
  refine ⟨getVariantClasses_eq_table d e v, ?_, ?_⟩
  · intro h1 h2
    rw [getVariantClasses_eq_table d e v, getVariantClasses_eq_table d e "outlined"]
    have h3 : parseVariant v = VariantE.outlined := by simp [parseVariant, h1, h2]
    have h4 : parseVariant "outlined" = VariantE.outlined := by decide
    rw [h3, h4]
  · intro hd
    subst hd
    rw [getVariantClasses_eq_table]
    rfl

/-- Witness for C6: an unrecognized variant string falls back to the
outlined style, and the disabled-ghost example of the spec yields the disabled
style regardless of the error flag. -/
theorem style_selection_total_witness :
    getVariantClasses false false "bogus" = getVariantClasses false false "outlined"
    ∧ getVariantClasses true true "ghost"
        = variantStyleTable true false VariantE.outlined :=
  ⟨(style_selection_total false false "bogus").2.1 (by decide) (by decide),
   (style_selection_total true true "ghost").2.2 rfl⟩

/-- C8, counterexample: with `invalid := true` but no error message and no
helper text, the error condition holds and the aria-describedby of the input is
the error identifier, yet no footer element is rendered, so no element bears
that identifier. -/
theorem describedby_claim_false :
    hasError ({ invalid := true } : InputFieldProps) = true
    ∧ (render ({ invalid := true } : InputFieldProps) ⟨false, false⟩).ariaDescribedby
        = some DescriptionId.errorId
    ∧ (render ({ invalid := true } : InputFieldProps) ⟨false, false⟩).footer
        = none := by
  exact ⟨rfl, rfl, rfl⟩

/-- C8, amended: the description association is the error identifier when
the error condition holds, else the helper-text identifier when helper text
is non-empty, else none; when the error condition holds, any rendered footer
bears the error identifier and contains the error message, and whenever
`errorMessage` or `helperText` is non-empty that footer element does exist
with the error identifier and the error message; but when both are empty no
footer element exists, so the error identifier dangles. -/
theorem describedby_association (p : InputFieldProps) (st : TransientState) :
    ((render p st).ariaDescribedby =
      if hasError p then some DescriptionId.errorId
      else if truthy p.helperText then some DescriptionId.helperTextId
      else none)
    ∧ (hasError p = true → ∀ fr : FooterRegion, (render p st).footer = some fr →
        fr.id = DescriptionId.errorId ∧ fr.content = p.errorMessage)
    ∧ (hasError p = true → (truthy p.helperText || truthy p.errorMessage) = true →
        (render p st).footer = some ⟨DescriptionId.errorId, p.errorMessage⟩)
    ∧ (hasError p = true → truthy p.helperText = false →
        truthy p.errorMessage = false → (render p st).footer = none) := by
  refine ⟨rfl, ?_, ?_, ?_⟩
  · intro h fr hfr
    rw [footer_eq] at hfr
    split at hfr
    · injection hfr with h2
      subst h2
      simp [h]
    · exact Option.noConfusion hfr
  · intro h hne
    rw [footer_eq]
    simp [h, hne]
  · intro _h h1 h2
    rw [footer_eq]
    simp [h1, h2]

/-- Witness for the amended C8 at concrete configurations. -/
theorem describedby_association_witness :
    ((⟨DescriptionId.errorId, some "bad"⟩ : FooterRegion).id = DescriptionId.errorId
      ∧ (⟨DescriptionId.errorId, some "bad"⟩ : FooterRegion).content = some "bad")
    ∧ (render ({ invalid := true, errorMessage := some "bad" } : InputFieldProps)
        ⟨false, false⟩).footer = some ⟨DescriptionId.errorId, some "bad"⟩
    ∧ (render ({ invalid := true } : InputFieldProps) ⟨false, false⟩).footer
        = none :=
  ⟨(describedby_association
      ({ invalid := true, errorMessage := some "bad" } : InputFieldProps)
      ⟨false, false⟩).2.1 rfl ⟨DescriptionId.errorId, some "bad"⟩ (by decide),
   (describedby_association
      ({ invalid := true, errorMessage := some "bad" } : InputFieldProps)
      ⟨false, false⟩).2.2.1 rfl (by decide),
   (describedby_association ({ invalid := true } : InputFieldProps)
      ⟨false, false⟩).2.2.2 rfl rfl rfl⟩
